import Mathlib

/-
  Verification of the OTA update controller in
  src/src/ota_update_task-newish.c (ESP32_ota-update-task).

  The C task is embedded shallowly: the external calls (partition getters,
  esp_https_ota_begin/get_img_desc/perform/is_complete_data_received/finish,
  esp_ota_get_partition_description) are modelled by an environment record
  holding their results, and the task body is a pure function from that
  environment to a trace of observable events plus a terminal action.
-/

namespace OtaTask

/-- esp-idf success code ESP_OK. -/
def ESP_OK : Nat := 0

/-- esp-idf error code ESP_ERR_HTTPS_OTA_IN_PROGRESS (ESP_ERR_HTTPS_OTA_BASE + 1). -/
def ESP_ERR_HTTPS_OTA_IN_PROGRESS : Nat := 0x9001

/-- esp-idf error code ESP_ERR_OTA_VALIDATE_FAILED (ESP_ERR_OTA_BASE + 3). -/
def ESP_ERR_OTA_VALIDATE_FAILED : Nat := 0x1503

/-- C strncmp(a, b, n) == 0, on byte buffers modelled as lists of bytes.
    strncmp compares at most n bytes and stops early at a common NUL
    terminator; bytes after the first common 0 are not inspected. -/
def strncmpEq : List Nat → List Nat → Nat → Bool
  | _, _, 0 => true
  | [], [], _ + 1 => true
  | [], _ :: _, _ + 1 => false
  | _ :: _, [], _ + 1 => false
  | x :: xs, y :: ys, n + 1 =>
      if x = y then (if x = 0 then true else strncmpEq xs ys n) else false

/-- esp_app_desc_t identity fields: char project_name[32], version[32],
    date[16], time[16], each modelled as a list of bytes of the declared
    fixed capacity (see descWF). -/
structure AppDesc where
  project_name : List Nat
  version : List Nat
  date : List Nat
  time : List Nat
deriving DecidableEq

/-- Field capacities of esp_app_desc_t as used by sizeof in the C code. -/
@[reducible] def descWF (d : AppDesc) : Prop :=
  d.project_name.length = 32 ∧ d.version.length = 32 ∧
  d.date.length = 16 ∧ d.time.length = 16

/-- _versions_match from the C source: strncmp of the four fields, each at
    its field capacity. -/
def versions_match (d1 d2 : AppDesc) : Bool :=
  strncmpEq d1.project_name d2.project_name 32 &&
  strncmpEq d1.version d2.version 32 &&
  strncmpEq d1.date d2.date 16 &&
  strncmpEq d1.time d2.time 16

/-- The C-string content of a buffer: the bytes before the first NUL,
    looking at most n bytes deep. strncmp equality coincides with equality
    of these truncations (lemma strncmpEq_iff_cString below). -/
def cString (l : List Nat) (n : Nat) : List Nat :=
  (l.take n).takeWhile (fun c => c != 0)

/-- Observable events of one run of ota_update_task, in program order. -/
inductive Event
  | logBootPartMismatch
  | beginCalled
  | logBeginFailed
  | logNoUpdateFound
  | logCantGetVersion
  | errorCheckFailed
  | compareCalled (d1 d2 : AppDesc)
  | logInvalidSame
  | logNoUpdateAvailable
  | performCalled
  | assertFailed
  | logDownloadError
  | abortCalled
  | finishCalled
  | logCorrupted
  | logPrepareRestart
  | restartCalled
  | deleteTaskCalled
deriving DecidableEq

/-- How control leaves the task: vTaskDelete via _delete_task, esp_restart,
    or a program abort raised by ESP_ERROR_CHECK or a failed assert. -/
inductive Terminal
  | taskDeleted
  | restarted
  | fatalAbort
deriving DecidableEq

/-- Results of the external calls made by one invocation of the task.
    Option fields model calls that can yield NULL / not-ESP_OK; the garbage
    fields model the initial (uninitialized) contents of the stack variables
    running_app_info and invalid_app_info which the C code leaves untouched
    when esp_ota_get_partition_description does not return ESP_OK. -/
structure Env where
  configured_part : Nat
  running_part : Nat
  update_part : Option Nat
  last_invalid : Option Nat
  begin_err : Nat
  handle_null : Bool
  img_desc_err : Nat
  img_desc : AppDesc
  running_desc : Option AppDesc
  invalid_desc : Option AppDesc
  garbage_running : AppDesc
  garbage_invalid : AppDesc
  steps : List Nat
  is_complete : Bool
  finish_err : Nat

/-- new_app_info after a successful esp_https_ota_get_img_desc. -/
def newApp (e : Env) : AppDesc := e.img_desc

/-- running_app_info: the fetched descriptor when available, otherwise the
    uninitialized stack contents. -/
def runningApp (e : Env) : AppDesc := e.running_desc.getD e.garbage_running

/-- invalid_app_info: the fetched descriptor when available, otherwise the
    uninitialized stack contents. -/
def invalidApp (e : Env) : AppDesc := e.invalid_desc.getD e.garbage_invalid

/-- Events before esp_https_ota_begin: the boot-partition mismatch warning
    when configured and running partitions differ, then the begin call. -/
def preEvents (e : Env) : List Event :=
  (if e.configured_part ≠ e.running_part then [Event.logBootPartMismatch] else [])
    ++ [Event.beginCalled]

/-- The while loop around esp_https_ota_perform: given the successive
    results of the perform calls, the perform events issued and the result
    that broke the loop (none when every listed result is IN_PROGRESS,
    i.e. the loop has not exited within the modelled results). -/
def downloadLoop : List Nat → List Event × Option Nat
  | [] => ([], none)
  | r :: rs =>
      if r = ESP_ERR_HTTPS_OTA_IN_PROGRESS then
        let rec_ := downloadLoop rs
        (Event.performCalled :: rec_.1, rec_.2)
      else
        ([Event.performCalled], some r)

/-- Number of esp_https_ota_perform calls the loop makes. -/
def numPerformCalls : List Nat → Nat
  | [] => 0
  | r :: rs =>
      if r = ESP_ERR_HTTPS_OTA_IN_PROGRESS then numPerformCalls rs + 1 else 1

/-- Lines 153-187 of the C source: assert(update_part != NULL), the
    download loop, the completeness check, esp_https_ota_finish, and the
    restart. -/
def downloadAndFinish (e : Env) : List Event × Option Terminal :=
  match e.update_part, (downloadLoop e.steps).2 with
  | none, _ => ([Event.assertFailed], some Terminal.fatalAbort)
  | some _, none => ((downloadLoop e.steps).1, none)
  | some _, some err =>
      if err ≠ ESP_OK ∨ e.is_complete = false then
        ((downloadLoop e.steps).1 ++ [Event.logDownloadError,
             Event.abortCalled, Event.deleteTaskCalled],
         some Terminal.taskDeleted)
      else if e.finish_err = ESP_ERR_OTA_VALIDATE_FAILED then
        ((downloadLoop e.steps).1 ++ [Event.finishCalled, Event.logCorrupted,
             Event.logPrepareRestart, Event.restartCalled],
         some Terminal.restarted)
      else
        ((downloadLoop e.steps).1 ++ [Event.finishCalled,
             Event.logPrepareRestart, Event.restartCalled],
         some Terminal.restarted)

/-- Line 147-151 of the C source: _versions_match(&new_app_info,
    &running_app_info), the no-update exit, else the download. -/
def runningCompare (e : Env) : List Event × Option Terminal :=
  if versions_match (newApp e) (runningApp e) then
    ([Event.compareCalled (newApp e) (runningApp e),
      Event.logNoUpdateAvailable, Event.abortCalled, Event.deleteTaskCalled],
     some Terminal.taskDeleted)
  else
    (Event.compareCalled (newApp e) (runningApp e) :: (downloadAndFinish e).1,
     (downloadAndFinish e).2)

/-- Lines 140-151 of the C source: the last-invalid comparison guarded only
    by last_invalid_app != NULL, then the running comparison. -/
def comparePhase (e : Env) : List Event × Option Terminal :=
  if e.last_invalid.isSome then
    if versions_match (invalidApp e) (newApp e) then
      ([Event.compareCalled (invalidApp e) (newApp e),
        Event.logInvalidSame, Event.abortCalled, Event.deleteTaskCalled],
       some Terminal.taskDeleted)
    else
      (Event.compareCalled (invalidApp e) (newApp e) :: (runningCompare e).1,
       (runningCompare e).2)
  else runningCompare e

/-- The whole of ota_update_task: trace of events and terminal action
    (none = the download loop never exits within the modelled results). -/
def ota_update_task (e : Env) : List Event × Option Terminal :=
  if e.begin_err ≠ ESP_OK then
    (preEvents e ++ [Event.logBeginFailed, Event.deleteTaskCalled],
     some Terminal.taskDeleted)
  else if e.handle_null then
    (preEvents e ++ [Event.abortCalled, Event.logNoUpdateFound,
                     Event.deleteTaskCalled],
     some Terminal.taskDeleted)
  else if e.img_desc_err ≠ ESP_OK then
    (preEvents e ++ [Event.logCantGetVersion, Event.errorCheckFailed],
     some Terminal.fatalAbort)
  else
    (preEvents e ++ (comparePhase e).1, (comparePhase e).2)

/-- The compare event emitted by the guarded last-invalid comparison, when
    the last-invalid partition exists. -/
def invPrefix (e : Env) : List Event :=
  if e.last_invalid.isSome then
    [Event.compareCalled (invalidApp e) (newApp e)]
  else []

/-- Pad a byte list with NULs up to a field capacity. -/
def padTo (n : Nat) (l : List Nat) : List Nat :=
  l ++ List.replicate (n - l.length) 0

/-- Descriptor "fw" version "1.0", built 2024-01-01 00:00. -/
def descRun : AppDesc :=
  { project_name := padTo 32 [102, 119]
    version := padTo 32 [49, 46, 48]
    date := padTo 16 [50, 48, 50, 52]
    time := padTo 16 [48, 48] }

/-- Descriptor "fw" version "2.0", built 2024-01-01 00:00. -/
def descNew : AppDesc :=
  { descRun with version := padTo 32 [50, 46, 48] }

/-- Descriptor "fw" version "3.0": marked-invalid firmware in scenarios. -/
def descInv : AppDesc :=
  { descRun with version := padTo 32 [51, 46, 48] }

/-- Descriptor whose project_name holds garbage bytes after the NUL at
    index 2: [102, 119, 0, 1, 0, ...]. -/
def descPadA : AppDesc :=
  { descRun with project_name := padTo 32 [102, 119, 0, 1] }

/-- Same as descPadA but with a different garbage byte after the NUL:
    [102, 119, 0, 2, 0, ...]. -/
def descPadB : AppDesc :=
  { descRun with project_name := padTo 32 [102, 119, 0, 2] }

/-- Baseline environment: a clean successful update run. The update
    partition (1) differs from the running partition (0), the remote
    descriptor differs from the running one, one perform call returns
    ESP_OK, the image is complete and finish succeeds. -/
def envBase : Env :=
  { configured_part := 0
    running_part := 0
    update_part := some 1
    last_invalid := none
    begin_err := ESP_OK
    handle_null := false
    img_desc_err := ESP_OK
    img_desc := descNew
    running_desc := some descRun
    invalid_desc := none
    garbage_running := descRun
    garbage_invalid := descRun
    steps := [ESP_OK]
    is_complete := true
    finish_err := ESP_OK }

/-- Environment where the next-update partition coincides with the running
    partition (both partition 0) and everything else succeeds. -/
def envUpdEqRun : Env := { envBase with update_part := some 0 }

/-- Environment where esp_ota_get_next_update_partition returned NULL. -/
def envUpdNone : Env := { envBase with update_part := none }

/-- Environment where esp_https_ota_begin fails. -/
def envBeginFail : Env := { envBase with begin_err := 1 }

/-- Environment where esp_https_ota_get_img_desc fails. -/
def envFetchFail : Env := { envBase with img_desc_err := 1 }

/-- Environment where esp_https_ota_finish fails with an error that is not
    ESP_ERR_OTA_VALIDATE_FAILED (here ESP_FAIL-like code 1). -/
def envFinishErr : Env := { envBase with finish_err := 1 }

/-- Environment where esp_https_ota_finish reports
    ESP_ERR_OTA_VALIDATE_FAILED. -/
def envValidateFail : Env :=
  { envBase with finish_err := ESP_ERR_OTA_VALIDATE_FAILED }

/-- Environment where the remote descriptor equals the last-invalid
    descriptor (both descNew); a last-invalid partition (2) exists. -/
def envInvalidMatch : Env :=
  { envBase with last_invalid := some 2, invalid_desc := some descNew }

/-- Environment where the remote descriptor equals the running descriptor
    (no update available). -/
def envNoUpdate : Env := { envBase with img_desc := descRun }

/-- Environment where the download loop sees two IN_PROGRESS results and
    then an error, so the transfer fails mid-stream. -/
def envStepError : Env :=
  { envBase with
      steps := [ESP_ERR_HTTPS_OTA_IN_PROGRESS, ESP_ERR_HTTPS_OTA_IN_PROGRESS, 1] }

/-- Environment where the download loop ends with ESP_OK but the received
    data is incomplete. -/
def envIncomplete : Env := { envBase with is_complete := false }

/-- Environment where esp_ota_get_partition_description fails for the
    running partition, leaving running_app_info uninitialized; the stack
    garbage happens to hold descInv. -/
def envUnsetRunningDesc : Env :=
  { envBase with running_desc := none, garbage_running := descInv }

/-- strncmp equality is symmetric (helper for the comparator lemmas). -/
theorem strncmpEq_symm (a : List Nat) :
    ∀ (b : List Nat) (n : Nat), strncmpEq a b n = strncmpEq b a n := by
  induction a with
  | nil => intro b n; cases b <;> cases n <;> simp [strncmpEq]
  | cons x xs ih =>
    intro b n
    cases b with
    | nil => cases n <;> simp [strncmpEq]
    | cons y ys =>
      cases n with
      | zero => simp [strncmpEq]
      | succ m =>
        simp only [strncmpEq]
        by_cases hxy : x = y
        · subst hxy; simp [ih]
        · rw [if_neg hxy, if_neg (Ne.symm hxy)]

/-- strncmp equality at capacity n over equally sized buffers is exactly
    equality of the C-string truncations (helper). -/
theorem strncmpEq_iff_cString (a : List Nat) :
    ∀ (b : List Nat) (n : Nat), a.length = b.length →
      (strncmpEq a b n = true ↔ cString a n = cString b n) := by
  induction a with
  | nil =>
    intro b n hlen
    obtain rfl : b = [] := (List.length_eq_zero.mp hlen.symm)
    cases n <;> simp [strncmpEq, cString]
  | cons x xs ih =>
    intro b n hlen
    cases b with
    | nil => simp at hlen
    | cons y ys =>
      have hxs : xs.length = ys.length := by simpa using hlen
      cases n with
      | zero => simp [strncmpEq, cString]
      | succ m =>
        by_cases hxy : x = y
        · subst hxy
          by_cases hx0 : x = 0
          · subst hx0
            simp [strncmpEq, cString, List.takeWhile_cons]
          · simp [strncmpEq, cString, List.takeWhile_cons, hx0,
                  ih ys m hxs]
        · by_cases hx0 : x = 0 <;> by_cases hy0 : y = 0
          · exact absurd (hx0.trans hy0.symm) hxy
          · subst hx0
            simp [strncmpEq, cString, List.takeWhile_cons, hxy, hy0]
          · subst hy0
            simp [strncmpEq, cString, List.takeWhile_cons, hxy, hx0]
          · simp [strncmpEq, cString, List.takeWhile_cons, hxy, hx0, hy0]

/-- The download loop emits exactly one perform event per call made
    (helper). -/
theorem downloadLoop_fst (steps : List Nat) :
    (downloadLoop steps).1
      = List.replicate (numPerformCalls steps) Event.performCalled := by
  induction steps with
  | nil => simp [downloadLoop, numPerformCalls]
  | cons r rs ih =>
    by_cases h : r = ESP_ERR_HTTPS_OTA_IN_PROGRESS
    · simp [downloadLoop, numPerformCalls, h, ih, List.replicate_succ]
    · simp [downloadLoop, numPerformCalls, h]

/-- Events before begin are only the mismatch warning and the begin call
    (helper). -/
theorem mem_preEvents {e : Env} {ev : Event} (h : ev ∈ preEvents e) :
    ev = Event.logBootPartMismatch ∨ ev = Event.beginCalled := by
  unfold preEvents at h
  by_cases hc : e.configured_part ≠ e.running_part
  · simp [hc] at h; tauto
  · simp [hc] at h; tauto

/-- The begin call is always in the pre-events (helper). -/
theorem beginCalled_mem_preEvents (e : Env) :
    Event.beginCalled ∈ preEvents e := by
  unfold preEvents
  by_cases hc : e.configured_part ≠ e.running_part <;> simp [hc]

/-- Shape of the run when both version comparisons fail: the task goes on
    to the download phase (helper). -/
theorem run_download_path (e : Env)
    (ha : e.begin_err = ESP_OK) (hb : e.handle_null = false)
    (hc : e.img_desc_err = ESP_OK)
    (hinv : e.last_invalid.isSome = true →
      versions_match (invalidApp e) (newApp e) = false)
    (hrun : versions_match (newApp e) (runningApp e) = false) :
    ota_update_task e
      = (preEvents e ++ invPrefix e
           ++ Event.compareCalled (newApp e) (runningApp e)
             :: (downloadAndFinish e).1,
         (downloadAndFinish e).2) := by
  by_cases hLI : e.last_invalid.isSome
  · simp [ota_update_task, ha, hb, hc, comparePhase, hLI, hinv hLI,
          runningCompare, hrun, invPrefix]
  · simp [ota_update_task, ha, hb, hc, comparePhase, hLI,
          runningCompare, hrun, invPrefix]

/-- Shape of the download phase when the transfer fails or is incomplete
    (helper). -/
theorem downloadAndFinish_fail {e : Env} {u r : Nat}
    (hu : e.update_part = some u) (hdl : (downloadLoop e.steps).2 = some r)
    (hcnd : r ≠ ESP_OK ∨ e.is_complete = false) :
    downloadAndFinish e
      = (List.replicate (numPerformCalls e.steps) Event.performCalled
           ++ [Event.logDownloadError, Event.abortCalled,
               Event.deleteTaskCalled],
         some Terminal.taskDeleted) := by
  simp [downloadAndFinish, hu, hdl, hcnd, downloadLoop_fst]

/-- Shape of the download phase on a complete transfer whose finish call
    reports a validation failure (helper). -/
theorem downloadAndFinish_validateFailed {e : Env} {u : Nat}
    (hu : e.update_part = some u)
    (hdl : (downloadLoop e.steps).2 = some ESP_OK)
    (hic : e.is_complete = true)
    (hf : e.finish_err = ESP_ERR_OTA_VALIDATE_FAILED) :
    downloadAndFinish e
      = (List.replicate (numPerformCalls e.steps) Event.performCalled
           ++ [Event.finishCalled, Event.logCorrupted,
               Event.logPrepareRestart, Event.restartCalled],
         some Terminal.restarted) := by
  simp [downloadAndFinish, hu, hdl, hic, hf, downloadLoop_fst]

/-- Shape of the download phase on a complete transfer whose finish call
    does not report a validation failure (helper). -/
theorem downloadAndFinish_finishOther {e : Env} {u : Nat}
    (hu : e.update_part = some u)
    (hdl : (downloadLoop e.steps).2 = some ESP_OK)
    (hic : e.is_complete = true)
    (hf : e.finish_err ≠ ESP_ERR_OTA_VALIDATE_FAILED) :
    downloadAndFinish e
      = (List.replicate (numPerformCalls e.steps) Event.performCalled
           ++ [Event.finishCalled, Event.logPrepareRestart,
               Event.restartCalled],
         some Terminal.restarted) := by
  simp [downloadAndFinish, hu, hdl, hic, hf, downloadLoop_fst]

/-- If the download phase deletes the task, it called abort (helper). -/
theorem downloadAndFinish_abort {e : Env}
    (h : (downloadAndFinish e).2 = some Terminal.taskDeleted) :
    Event.abortCalled ∈ (downloadAndFinish e).1 := by
  cases hu : e.update_part with
  | none => simp [downloadAndFinish, hu] at h
  | some u =>
    cases hdl : (downloadLoop e.steps).2 with
    | none => simp [downloadAndFinish, hu, hdl] at h
    | some err =>
      by_cases hcnd : err ≠ ESP_OK ∨ e.is_complete = false
      · simp [downloadAndFinish, hu, hdl, hcnd]
      · by_cases hf : e.finish_err = ESP_ERR_OTA_VALIDATE_FAILED <;>
          simp [downloadAndFinish, hu, hdl, hcnd, hf] at h

/-- If the running comparison phase deletes the task, it called abort
    (helper). -/
theorem runningCompare_abort {e : Env}
    (h : (runningCompare e).2 = some Terminal.taskDeleted) :
    Event.abortCalled ∈ (runningCompare e).1 := by
  by_cases hm : versions_match (newApp e) (runningApp e)
  · simp [runningCompare, hm]
  · have h2 : (downloadAndFinish e).2 = some Terminal.taskDeleted := by
      simpa [runningCompare, hm] using h
    simp only [runningCompare, hm, Bool.false_eq_true, if_false,
               List.mem_cons]
    exact Or.inr (downloadAndFinish_abort h2)

/-- If the whole comparison phase deletes the task, it called abort
    (helper). -/
theorem comparePhase_abort {e : Env}
    (h : (comparePhase e).2 = some Terminal.taskDeleted) :
    Event.abortCalled ∈ (comparePhase e).1 := by
  by_cases hLI : e.last_invalid.isSome
  · by_cases hm : versions_match (invalidApp e) (newApp e)
    · simp [comparePhase, hLI, hm]
    · have h2 : (runningCompare e).2 = some Terminal.taskDeleted := by
        simpa [comparePhase, hLI, hm] using h
      simp only [comparePhase, hLI, hm, Bool.false_eq_true, if_false,
                 if_true, List.mem_cons]
      exact Or.inr (runningCompare_abort h2)
  · have h2 : (runningCompare e).2 = some Terminal.taskDeleted := by
      simpa [comparePhase, hLI] using h
    simpa [comparePhase, hLI] using runningCompare_abort h2

/-- If the download loop exits, the download phase has a terminal
    (helper). -/
theorem downloadAndFinish_isSome {e : Env}
    (h : ((downloadLoop e.steps).2).isSome = true) :
    ((downloadAndFinish e).2).isSome = true := by
  cases hu : e.update_part with
  | none => simp [downloadAndFinish, hu]
  | some u =>
    cases hdl : (downloadLoop e.steps).2 with
    | none => rw [hdl] at h; simp at h
    | some err =>
      by_cases hcnd : err ≠ ESP_OK ∨ e.is_complete = false
      · simp [downloadAndFinish, hu, hdl, hcnd]
      · by_cases hf : e.finish_err = ESP_ERR_OTA_VALIDATE_FAILED <;>
          simp [downloadAndFinish, hu, hdl, hcnd, hf]

/-- If the download loop exits, the running comparison phase has a
    terminal (helper). -/
theorem runningCompare_isSome {e : Env}
    (h : ((downloadLoop e.steps).2).isSome = true) :
    ((runningCompare e).2).isSome = true := by
  by_cases hm : versions_match (newApp e) (runningApp e)
  · simp [runningCompare, hm]
  · simpa [runningCompare, hm] using downloadAndFinish_isSome h

/-- If the download loop exits, the comparison phase has a terminal
    (helper). -/
theorem comparePhase_isSome {e : Env}
    (h : ((downloadLoop e.steps).2).isSome = true) :
    ((comparePhase e).2).isSome = true := by
  by_cases hLI : e.last_invalid.isSome
  · by_cases hm : versions_match (invalidApp e) (newApp e)
    · simp [comparePhase, hLI, hm]
    · simpa [comparePhase, hLI, hm] using runningCompare_isSome h
  · simpa [comparePhase, hLI] using runningCompare_isSome h

/-- The pre-events contain no perform call (helper). -/
theorem count_perform_preEvents (e : Env) :
    (preEvents e).count Event.performCalled = 0 :=
  List.count_eq_zero.mpr fun h => by
    rcases mem_preEvents h with h1 | h1 <;> simp at h1

/-- The guarded invalid-comparison events contain no perform call
    (helper). -/
theorem count_perform_invPrefix (e : Env) :
    (invPrefix e).count Event.performCalled = 0 := by
  unfold invPrefix
  by_cases hLI : e.last_invalid.isSome <;> simp [hLI, List.count_eq_zero]

/-- The only possible invalid-comparison event (helper). -/
theorem mem_invPrefix {e : Env} {ev : Event} (h : ev ∈ invPrefix e) :
    ev = Event.compareCalled (invalidApp e) (newApp e) := by
  unfold invPrefix at h
  by_cases hLI : e.last_invalid.isSome
  · simpa [hLI] using h
  · simp [hLI] at h

/-- Case analysis for membership in a download-path trace (helper). -/
theorem mem_run_download {e : Env} {ev : Event} {tail : List Event}
    (h : ev ∈ preEvents e ++ invPrefix e
          ++ Event.compareCalled (newApp e) (runningApp e) :: tail) :
    ev = Event.logBootPartMismatch ∨ ev = Event.beginCalled ∨
    ev = Event.compareCalled (invalidApp e) (newApp e) ∨
    ev = Event.compareCalled (newApp e) (runningApp e) ∨ ev ∈ tail := by
  rcases List.mem_append.mp h with hp | hp
  · rcases List.mem_append.mp hp with hq | hq
    · rcases mem_preEvents hq with h1 | h1 <;> tauto
    · have := mem_invPrefix hq; tauto
  · rcases List.mem_cons.mp hp with h1 | h1 <;> tauto

/-- The loop makes at least one perform call when invoked (helper). -/
theorem numPerformCalls_ne_zero (s : Nat) (rest : List Nat) :
    numPerformCalls (s :: rest) ≠ 0 := by
  by_cases h : s = ESP_ERR_HTTPS_OTA_IN_PROGRESS <;>
    simp [numPerformCalls, h]

/-- A perform call happens in the download phase whenever the update
    partition exists and the loop body runs at least once (helper). -/
theorem perform_mem_downloadAndFinish {e : Env} {u : Nat}
    (hu : e.update_part = some u) (hs : numPerformCalls e.steps ≠ 0) :
    Event.performCalled ∈ (downloadAndFinish e).1 := by
  cases hdl : (downloadLoop e.steps).2 with
  | none =>
    simp [downloadAndFinish, hu, hdl, downloadLoop_fst,
          List.mem_replicate, hs]
  | some err =>
    by_cases hcnd : err ≠ ESP_OK ∨ e.is_complete = false
    · simp [downloadAndFinish, hu, hdl, hcnd, downloadLoop_fst,
            List.mem_append, List.mem_replicate, hs]
    · by_cases hf : e.finish_err = ESP_ERR_OTA_VALIDATE_FAILED <;>
        simp [downloadAndFinish, hu, hdl, hcnd, hf, downloadLoop_fst,
              List.mem_append, List.mem_replicate, hs]

/-- Claim C10: descriptor equality is symmetric: for all firmware
    descriptors a and b, _versions_match(a, b) = _versions_match(b, a),
    which the controller relies on by passing its arguments in opposite
    orders at its two call sites. -/
theorem c10_versions_match_symm (a b : AppDesc) :
    versions_match a b = versions_match b a := by
  unfold versions_match
  rw [strncmpEq_symm a.project_name b.project_name 32,
      strncmpEq_symm a.version b.version 32,
      strncmpEq_symm a.date b.date 16,
      strncmpEq_symm a.time b.time 16]

/-- Claim C2 counterexample: two well-formed descriptors that differ in
    the project_name field — only in a byte placed after the NUL
    terminator — still satisfy _versions_match, because strncmp stops at
    the terminator; so equality is not over the full fixed-width
    representation and a one-field difference does not force inequality. -/
theorem c2_counterexample :
    versions_match descPadA descPadB = true ∧
    descPadA.project_name ≠ descPadB.project_name ∧
    descWF descPadA ∧ descWF descPadB := by decide

/-- Claim C2 as amended: for well-formed descriptors, _versions_match is
    true iff the four fields agree as NUL-terminated strings read within
    their fixed capacities (bytes after the first terminator are not
    compared). -/
theorem c2_equal_iff_cString (a b : AppDesc)
    (ha : descWF a) (hb : descWF b) :
    versions_match a b = true
      ↔ (cString a.project_name 32 = cString b.project_name 32 ∧
         cString a.version 32 = cString b.version 32 ∧
         cString a.date 16 = cString b.date 16 ∧
         cString a.time 16 = cString b.time 16) := by
  obtain ⟨hp, hv, hd, ht⟩ := ha
  obtain ⟨hp2, hv2, hd2, ht2⟩ := hb
  simp only [versions_match, Bool.and_eq_true]
  rw [strncmpEq_iff_cString _ _ _ (hp.trans hp2.symm),
      strncmpEq_iff_cString _ _ _ (hv.trans hv2.symm),
      strncmpEq_iff_cString _ _ _ (hd.trans hd2.symm),
      strncmpEq_iff_cString _ _ _ (ht.trans ht2.symm)]
  tauto

/-- Witness for the amended C2 at the concrete pair descRun, descNew. -/
theorem c2_witness :
    descWF descRun ∧ descWF descNew ∧
    (versions_match descRun descNew = true
      ↔ (cString descRun.project_name 32 = cString descNew.project_name 32 ∧
         cString descRun.version 32 = cString descNew.version 32 ∧
         cString descRun.date 16 = cString descNew.date 16 ∧
         cString descRun.time 16 = cString descNew.time 16)) :=
  ⟨by decide, by decide,
   c2_equal_iff_cString descRun descNew (by decide) (by decide)⟩

/-- Claim C1 counterexample: when the next-update partition equals the
    running partition (both partition 0) and every transport call
    succeeds, the run restarts the device; no fatal precondition is ever
    reached and the session is opened. -/
theorem c1_counterexample :
    envUpdEqRun.update_part = some envUpdEqRun.running_part ∧
    (ota_update_task envUpdEqRun).2 = some Terminal.restarted ∧
    Event.assertFailed ∉ (ota_update_task envUpdEqRun).1 ∧
    Event.errorCheckFailed ∉ (ota_update_task envUpdEqRun).1 ∧
    Event.beginCalled ∈ (ota_update_task envUpdEqRun).1 := by decide

/-- Claim C1 as amended: an absent next-update partition is only caught by
    the assert in the download phase, after the Transport Session has been
    opened and both version comparisons have passed; equality with the
    running partition is never checked. -/
theorem c1_update_partition_check_late (e : Env)
    (ha : e.begin_err = ESP_OK) (hb : e.handle_null = false)
    (hc : e.img_desc_err = ESP_OK)
    (hinv : e.last_invalid.isSome = true →
      versions_match (invalidApp e) (newApp e) = false)
    (hrun : versions_match (newApp e) (runningApp e) = false)
    (hupd : e.update_part = none) :
    (ota_update_task e).2 = some Terminal.fatalAbort ∧
    Event.beginCalled ∈ (ota_update_task e).1 ∧
    Event.assertFailed ∈ (ota_update_task e).1 := by
  rw [run_download_path e ha hb hc hinv hrun]
  simp [downloadAndFinish, hupd, beginCalled_mem_preEvents]

/-- Witness for the amended C1: concrete run with no update partition. -/
theorem c1_witness :
    envUpdNone.update_part = none ∧
    ((ota_update_task envUpdNone).2 = some Terminal.fatalAbort ∧
     Event.beginCalled ∈ (ota_update_task envUpdNone).1 ∧
     Event.assertFailed ∈ (ota_update_task envUpdNone).1) :=
  ⟨rfl, c1_update_partition_check_late envUpdNone rfl rfl rfl
    (by decide) (by decide) rfl⟩

/-- Claim C3: when finish reports ESP_ERR_OTA_VALIDATE_FAILED after a
    complete download, the task logs the corruption but still proceeds to
    the device restart. -/
theorem c3_validate_failed_still_restarts (e : Env) (u : Nat)
    (ha : e.begin_err = ESP_OK) (hb : e.handle_null = false)
    (hc : e.img_desc_err = ESP_OK)
    (hinv : e.last_invalid.isSome = true →
      versions_match (invalidApp e) (newApp e) = false)
    (hrun : versions_match (newApp e) (runningApp e) = false)
    (hu : e.update_part = some u)
    (hdl : (downloadLoop e.steps).2 = some ESP_OK)
    (hic : e.is_complete = true)
    (hf : e.finish_err = ESP_ERR_OTA_VALIDATE_FAILED) :
    Event.logCorrupted ∈ (ota_update_task e).1 ∧
    (ota_update_task e).2 = some Terminal.restarted ∧
    Event.restartCalled ∈ (ota_update_task e).1 := by
  rw [run_download_path e ha hb hc hinv hrun,
      downloadAndFinish_validateFailed hu hdl hic hf]
  simp

/-- Witness for C3: concrete run whose finish reports a validation
    failure. -/
theorem c3_witness :
    envValidateFail.finish_err = ESP_ERR_OTA_VALIDATE_FAILED ∧
    (Event.logCorrupted ∈ (ota_update_task envValidateFail).1 ∧
     (ota_update_task envValidateFail).2 = some Terminal.restarted ∧
     Event.restartCalled ∈ (ota_update_task envValidateFail).1) :=
  ⟨rfl, c3_validate_failed_still_restarts envValidateFail 1 rfl rfl rfl
    (by decide) (by decide) rfl (by decide) rfl rfl⟩

/-- Claim C4 counterexample: when finish fails with an error other than
    ESP_ERR_OTA_VALIDATE_FAILED (here 1), the task still restarts the
    device and does not terminate through the lifecycle guard. -/
theorem c4_counterexample :
    envFinishErr.finish_err ≠ ESP_OK ∧
    envFinishErr.finish_err ≠ ESP_ERR_OTA_VALIDATE_FAILED ∧
    (ota_update_task envFinishErr).2 = some Terminal.restarted ∧
    Event.restartCalled ∈ (ota_update_task envFinishErr).1 ∧
    Event.deleteTaskCalled ∉ (ota_update_task envFinishErr).1 := by decide

/-- Claim C4 as amended: a finish result other than
    ESP_ERR_OTA_VALIDATE_FAILED has no effect on control flow — the task
    neither logs the corruption message nor terminates, and proceeds to
    the device restart. -/
theorem c4_finish_error_ignored (e : Env) (u : Nat)
    (ha : e.begin_err = ESP_OK) (hb : e.handle_null = false)
    (hc : e.img_desc_err = ESP_OK)
    (hinv : e.last_invalid.isSome = true →
      versions_match (invalidApp e) (newApp e) = false)
    (hrun : versions_match (newApp e) (runningApp e) = false)
    (hu : e.update_part = some u)
    (hdl : (downloadLoop e.steps).2 = some ESP_OK)
    (hic : e.is_complete = true)
    (hf : e.finish_err ≠ ESP_ERR_OTA_VALIDATE_FAILED) :
    (ota_update_task e).2 = some Terminal.restarted ∧
    Event.restartCalled ∈ (ota_update_task e).1 ∧
    Event.logCorrupted ∉ (ota_update_task e).1 ∧
    Event.deleteTaskCalled ∉ (ota_update_task e).1 := by
  rw [run_download_path e ha hb hc hinv hrun,
      downloadAndFinish_finishOther hu hdl hic hf]
  refine ⟨rfl, by simp, ?_, ?_⟩
  · intro hmem
    rcases mem_run_download hmem with h1 | h1 | h1 | h1 | h1 <;> simp at h1
  · intro hmem
    rcases mem_run_download hmem with h1 | h1 | h1 | h1 | h1 <;> simp at h1

/-- Witness for the amended C4: concrete run with finish error 1. -/
theorem c4_witness :
    envFinishErr.finish_err ≠ ESP_ERR_OTA_VALIDATE_FAILED ∧
    ((ota_update_task envFinishErr).2 = some Terminal.restarted ∧
     Event.restartCalled ∈ (ota_update_task envFinishErr).1 ∧
     Event.logCorrupted ∉ (ota_update_task envFinishErr).1 ∧
     Event.deleteTaskCalled ∉ (ota_update_task envFinishErr).1) :=
  ⟨by decide, c4_finish_error_ignored envFinishErr 1 rfl rfl rfl
    (by decide) (by decide) rfl (by decide) rfl (by decide)⟩

/-- Claim C7 counterexample: the begin-failure path terminates through the
    lifecycle guard without ever invoking the session abort. -/
theorem c7_counterexample :
    envBeginFail.begin_err ≠ ESP_OK ∧
    (ota_update_task envBeginFail).2 = some Terminal.taskDeleted ∧
    Event.abortCalled ∉ (ota_update_task envBeginFail).1 := by decide

/-- Claim C7 as amended: on every path that terminates through the
    lifecycle guard after a successful begin call (missing session handle,
    version-match skips, download failure), the session abort is invoked
    before the task deletes itself; the begin-failure path terminates
    without abort, and the descriptor-fetch-failure path aborts the whole
    program via ESP_ERROR_CHECK before any session cleanup. -/
theorem c7_abort_on_guarded_termination (e : Env)
    (h : (ota_update_task e).2 = some Terminal.taskDeleted)
    (hbegin : e.begin_err = ESP_OK) :
    Event.abortCalled ∈ (ota_update_task e).1 := by
  by_cases hn : e.handle_null
  · simp [ota_update_task, hbegin, hn]
  · by_cases hid : e.img_desc_err = ESP_OK
    · have h2 : (comparePhase e).2 = some Terminal.taskDeleted := by
        simpa [ota_update_task, hbegin, hn, hid] using h
      have htr : (ota_update_task e).1 = preEvents e ++ (comparePhase e).1 := by
        simp [ota_update_task, hbegin, hn, hid]
      rw [htr]
      exact List.mem_append.mpr (Or.inr (comparePhase_abort h2))
    · exfalso
      simp [ota_update_task, hbegin, hn, hid] at h

/-- Witness for the amended C7: the no-update skip path aborts the session
    before self-terminating. -/
theorem c7_witness :
    (ota_update_task envNoUpdate).2 = some Terminal.taskDeleted ∧
    envNoUpdate.begin_err = ESP_OK ∧
    Event.abortCalled ∈ (ota_update_task envNoUpdate).1 :=
  ⟨by decide, rfl,
   c7_abort_on_guarded_termination envNoUpdate (by decide) rfl⟩

/-- Claim C8 (code bug): when esp_ota_get_partition_description fails for
    the running partition, running_app_info keeps its uninitialized stack
    contents (here descInv), and the code still passes it to
    _versions_match — the comparator is invoked with an unset
    descriptor. -/
theorem c8_comparator_called_with_unset_descriptor :
    envUnsetRunningDesc.running_desc = none ∧
    Event.compareCalled (newApp envUnsetRunningDesc)
        envUnsetRunningDesc.garbage_running
      ∈ (ota_update_task envUnsetRunningDesc).1 := by decide

/-- Claim C9 counterexample: the descriptor-fetch-failure path terminates
    by the program abort raised inside ESP_ERROR_CHECK — neither the
    lifecycle guard self-termination nor a device restart. -/
theorem c9_counterexample :
    (ota_update_task envFetchFail).2 = some Terminal.fatalAbort ∧
    Terminal.fatalAbort ≠ Terminal.taskDeleted ∧
    Terminal.fatalAbort ≠ Terminal.restarted ∧
    Event.deleteTaskCalled ∉ (ota_update_task envFetchFail).1 ∧
    Event.restartCalled ∉ (ota_update_task envFetchFail).1 := by decide

/-- Claim C9 as amended: whenever the download loop exits, every code path
    of the task ends in an explicit terminal action — lifecycle-guard
    self-termination, device restart, or a fatal program abort — and never
    falls off the end (Terminal has exactly those three constructors). -/
theorem c9_explicit_terminal (e : Env)
    (h : ((downloadLoop e.steps).2).isSome = true) :
    ((ota_update_task e).2).isSome = true := by
  by_cases h1 : e.begin_err = ESP_OK
  · by_cases h2 : e.handle_null
    · simp [ota_update_task, h1, h2]
    · by_cases h3 : e.img_desc_err = ESP_OK
      · simpa [ota_update_task, h1, h2, h3] using comparePhase_isSome h
      · simp [ota_update_task, h1, h2, h3]
  · simp [ota_update_task, h1]

/-- Witness for the amended C9 at the baseline successful run. -/
theorem c9_witness :
    ((downloadLoop envBase.steps).2).isSome = true ∧
    ((ota_update_task envBase).2).isSome = true :=
  ⟨by decide, c9_explicit_terminal envBase (by decide)⟩

/-- Claim C5: on the download path the loop calls perform until the result
    is not IN_PROGRESS (one perform event per loop iteration, no retry);
    finish is reached iff the final step result is ESP_OK and the data is
    complete; otherwise the session is aborted and the task terminates
    through the lifecycle guard without calling finish. -/
theorem c5_download_loop_gate (e : Env) (u r : Nat)
    (ha : e.begin_err = ESP_OK) (hb : e.handle_null = false)
    (hc : e.img_desc_err = ESP_OK)
    (hinv : e.last_invalid.isSome = true →
      versions_match (invalidApp e) (newApp e) = false)
    (hrun : versions_match (newApp e) (runningApp e) = false)
    (hu : e.update_part = some u)
    (hdl : (downloadLoop e.steps).2 = some r) :
    ((ota_update_task e).1.count Event.performCalled
       = numPerformCalls e.steps) ∧
    (Event.finishCalled ∈ (ota_update_task e).1
       ↔ (r = ESP_OK ∧ e.is_complete = true)) ∧
    (¬(r = ESP_OK ∧ e.is_complete = true) →
       (ota_update_task e).2 = some Terminal.taskDeleted ∧
       Event.abortCalled ∈ (ota_update_task e).1 ∧
       Event.finishCalled ∉ (ota_update_task e).1) := by
  rw [run_download_path e ha hb hc hinv hrun]
  by_cases hr : r = ESP_OK
  · subst hr
    by_cases hic : e.is_complete = true
    · by_cases hf : e.finish_err = ESP_ERR_OTA_VALIDATE_FAILED
      · rw [downloadAndFinish_validateFailed hu hdl hic hf]
        refine ⟨?_, iff_of_true (by simp) ⟨rfl, hic⟩,
                fun hcon => absurd ⟨rfl, hic⟩ hcon⟩
        simp [List.count_append, List.count_cons, count_perform_preEvents,
              count_perform_invPrefix, List.count_replicate]
      · rw [downloadAndFinish_finishOther hu hdl hic hf]
        refine ⟨?_, iff_of_true (by simp) ⟨rfl, hic⟩,
                fun hcon => absurd ⟨rfl, hic⟩ hcon⟩
        simp [List.count_append, List.count_cons, count_perform_preEvents,
              count_perform_invPrefix, List.count_replicate]
    · have hic2 : e.is_complete = false := by
        revert hic; cases e.is_complete <;> simp
      rw [downloadAndFinish_fail hu hdl (Or.inr hic2)]
      refine ⟨?_, ?_, fun _ => ⟨rfl, by simp, ?_⟩⟩
      · simp [List.count_append, List.count_cons, count_perform_preEvents,
              count_perform_invPrefix, List.count_replicate]
      · apply iff_of_false
        · intro hmem
          rcases mem_run_download hmem with h1 | h1 | h1 | h1 | h1 <;>
            simp at h1
        · exact fun hcon => hic hcon.2
      · intro hmem
        rcases mem_run_download hmem with h1 | h1 | h1 | h1 | h1 <;>
          simp at h1
  · rw [downloadAndFinish_fail hu hdl (Or.inl hr)]
    refine ⟨?_, ?_, fun _ => ⟨rfl, by simp, ?_⟩⟩
    · simp [List.count_append, List.count_cons, count_perform_preEvents,
            count_perform_invPrefix, List.count_replicate]
    · apply iff_of_false
      · intro hmem
        rcases mem_run_download hmem with h1 | h1 | h1 | h1 | h1 <;>
          simp at h1
      · exact fun hcon => hr hcon.1
    · intro hmem
      rcases mem_run_download hmem with h1 | h1 | h1 | h1 | h1 <;>
        simp at h1

/-- Witness for C5: a mid-stream step error after two IN_PROGRESS
    results. -/
theorem c5_witness :
    (downloadLoop envStepError.steps).2 = some 1 ∧
    (((ota_update_task envStepError).1.count Event.performCalled
        = numPerformCalls envStepError.steps) ∧
     (Event.finishCalled ∈ (ota_update_task envStepError).1
        ↔ (1 = ESP_OK ∧ envStepError.is_complete = true)) ∧
     (¬(1 = ESP_OK ∧ envStepError.is_complete = true) →
        (ota_update_task envStepError).2 = some Terminal.taskDeleted ∧
        Event.abortCalled ∈ (ota_update_task envStepError).1 ∧
        Event.finishCalled ∉ (ota_update_task envStepError).1)) :=
  ⟨by decide, c5_download_loop_gate envStepError 1 1 rfl rfl rfl
    (by decide) (by decide) rfl (by decide)⟩

/-- Claim C6: after the remote descriptor is fetched, the controller
    first compares it with the last-invalid descriptor whenever a
    last-invalid partition exists — on a match it aborts the session and
    self-terminates (MatchesInvalidVersion) without any download; else it
    compares remote with running — on a match it aborts and
    self-terminates (NoUpdateAvailable) without any download; only when
    both comparisons fail does it proceed to the download. -/
theorem c6_compare_order (e : Env)
    (ha : e.begin_err = ESP_OK) (hb : e.handle_null = false)
    (hc : e.img_desc_err = ESP_OK) :
    (∀ p di, e.last_invalid = some p → e.invalid_desc = some di →
       versions_match di (newApp e) = true →
       ota_update_task e
         = (preEvents e
              ++ [Event.compareCalled di (newApp e), Event.logInvalidSame,
                  Event.abortCalled, Event.deleteTaskCalled],
            some Terminal.taskDeleted) ∧
       Event.performCalled ∉ (ota_update_task e).1) ∧
    (∀ dr, e.running_desc = some dr →
       (e.last_invalid.isSome = true →
         versions_match (invalidApp e) (newApp e) = false) →
       versions_match (newApp e) dr = true →
       ota_update_task e
         = (preEvents e ++ invPrefix e
              ++ [Event.compareCalled (newApp e) dr,
                  Event.logNoUpdateAvailable, Event.abortCalled,
                  Event.deleteTaskCalled],
            some Terminal.taskDeleted) ∧
       Event.performCalled ∉ (ota_update_task e).1) ∧
    ((e.last_invalid.isSome = true →
        versions_match (invalidApp e) (newApp e) = false) →
      versions_match (newApp e) (runningApp e) = false →
      ∀ u s rest, e.update_part = some u → e.steps = s :: rest →
        Event.performCalled ∈ (ota_update_task e).1) := by
  refine ⟨?_, ?_, ?_⟩
  · intro p di hp hdi hm
    have hLI : e.last_invalid.isSome = true := by simp [hp]
    have hinvApp : invalidApp e = di := by simp [invalidApp, hdi]
    have htr : ota_update_task e
        = (preEvents e
             ++ [Event.compareCalled di (newApp e), Event.logInvalidSame,
                 Event.abortCalled, Event.deleteTaskCalled],
           some Terminal.taskDeleted) := by
      simp [ota_update_task, ha, hb, hc, comparePhase, hLI, hinvApp, hm]
    refine ⟨htr, ?_⟩
    rw [htr]
    intro hmem
    rcases List.mem_append.mp hmem with h1 | h1
    · rcases mem_preEvents h1 with h2 | h2 <;> simp at h2
    · simp at h1
  · intro dr hdr hinv hm
    have hrunApp : runningApp e = dr := by simp [runningApp, hdr]
    have htr : ota_update_task e
        = (preEvents e ++ invPrefix e
             ++ [Event.compareCalled (newApp e) dr,
                 Event.logNoUpdateAvailable, Event.abortCalled,
                 Event.deleteTaskCalled],
           some Terminal.taskDeleted) := by
      by_cases hLI : e.last_invalid.isSome = true
      · simp [ota_update_task, ha, hb, hc, comparePhase, hLI, hinv hLI,
              runningCompare, hrunApp, hm, invPrefix]
      · simp [ota_update_task, ha, hb, hc, comparePhase, hLI,
              runningCompare, hrunApp, hm, invPrefix]
    refine ⟨htr, ?_⟩
    rw [htr]
    intro hmem
    rcases List.mem_append.mp hmem with h1 | h1
    · rcases List.mem_append.mp h1 with h2 | h2
      · rcases mem_preEvents h2 with h3 | h3 <;> simp at h3
      · exact absurd (mem_invPrefix h2) (by simp)
    · simp at h1
  · intro hinv hrun u s rest hu hsteps
    rw [run_download_path e ha hb hc hinv hrun]
    have hne : numPerformCalls e.steps ≠ 0 := by
      rw [hsteps]; exact numPerformCalls_ne_zero s rest
    exact List.mem_append.mpr (Or.inr (List.mem_cons.mpr
      (Or.inr (perform_mem_downloadAndFinish hu hne))))

/-- Witness for C6 at a run whose remote image equals the last-invalid
    one. -/
theorem c6_witness :
    (∀ p di, envInvalidMatch.last_invalid = some p →
       envInvalidMatch.invalid_desc = some di →
       versions_match di (newApp envInvalidMatch) = true →
       ota_update_task envInvalidMatch
         = (preEvents envInvalidMatch
              ++ [Event.compareCalled di (newApp envInvalidMatch),
                  Event.logInvalidSame, Event.abortCalled,
                  Event.deleteTaskCalled],
            some Terminal.taskDeleted) ∧
       Event.performCalled ∉ (ota_update_task envInvalidMatch).1) ∧
    (∀ dr, envInvalidMatch.running_desc = some dr →
       (envInvalidMatch.last_invalid.isSome = true →
         versions_match (invalidApp envInvalidMatch)
           (newApp envInvalidMatch) = false) →
       versions_match (newApp envInvalidMatch) dr = true →
       ota_update_task envInvalidMatch
         = (preEvents envInvalidMatch ++ invPrefix envInvalidMatch
              ++ [Event.compareCalled (newApp envInvalidMatch) dr,
                  Event.logNoUpdateAvailable, Event.abortCalled,
                  Event.deleteTaskCalled],
            some Terminal.taskDeleted) ∧
       Event.performCalled ∉ (ota_update_task envInvalidMatch).1) ∧
    ((envInvalidMatch.last_invalid.isSome = true →
        versions_match (invalidApp envInvalidMatch)
          (newApp envInvalidMatch) = false) →
      versions_match (newApp envInvalidMatch)
        (runningApp envInvalidMatch) = false →
      ∀ u s rest, envInvalidMatch.update_part = some u →
        envInvalidMatch.steps = s :: rest →
        Event.performCalled ∈ (ota_update_task envInvalidMatch).1) :=
  c6_compare_order envInvalidMatch rfl rfl rfl

end OtaTask
